import Mathlib

/-!
Verification development for the channel multiplexer of
`vscode-python`'s raw-kernel transport layer.

The embedding follows the two source files:
- `src/client/datascience/raw-kernel/enchannel-zmq-backend-6/index.ts`
- `src/client/datascience/raw-kernel/enchannelJMPConnection.ts`

External collaborators (the wire codec's `encode`/`decode`, the zeromq
socket library's bind/send, the rxjs stream library) are modelled as
parameters or by their documented contracts; every function of the core
is translated line-by-line from the TypeScript source.
-/

namespace Enchannel

/-- Errors (JS exceptions / promise rejections) are modelled as strings. -/
abbrev Err := String

/-- The encoded on-wire frame sequence produced by the external codec. -/
abbrev Wire := String

/-- `type ChannelName = 'iopub' | 'stdin' | 'shell' | 'control'` (index.ts line 14). -/
inductive ChannelName
  | iopub
  | stdin
  | shell
  | control
deriving DecidableEq, Repr

/-- Channel name as the string used for object keys and messages. -/
def ChannelName.toStr : ChannelName → String
  | .iopub => "iopub"
  | .stdin => "stdin"
  | .shell => "shell"
  | .control => "control"

/-- `transport: 'tcp' | 'ipc'` (index.ts line 27). -/
inductive Transport
  | tcp
  | ipc
deriving DecidableEq, Repr

def Transport.toStr : Transport → String
  | .tcp => "tcp"
  | .ipc => "ipc"

/-- `JupyterConnectionInfo` (index.ts lines 17-28).  Ports are typed
`number` in TypeScript but the object is cast from `any` by the caller,
so a port may also be absent (`undefined`); we model each port as
`Option Int`, with JS falsiness given by `truthyPort`. -/
structure JupyterConnectionInfo where
  version : Nat
  iopub_port : Option Int
  shell_port : Option Int
  stdin_port : Option Int
  control_port : Option Int
  hb_port : Option Int
  signature_scheme : String
  ip : String
  key : String
  transport : Transport
deriving DecidableEq, Repr

/-- JS truthiness of a possibly-absent numeric port: `undefined` and `0`
are falsy, every other number is truthy. -/
def truthyPort : Option Int → Bool
  | none => false
  | some p => p != 0

/-- `config[`${channel}_port`]` — the per-channel port lookup performed
by `formConnectionString` (index.ts line 47). -/
def channelPort (config : JupyterConnectionInfo) : ChannelName → Option Int
  | .iopub => config.iopub_port
  | .shell => config.shell_port
  | .stdin => config.stdin_port
  | .control => config.control_port

/-- `formConnectionString` (index.ts lines 45-52): chooses the delimiter
by transport, looks up the channel's port, throws when the port is falsy,
otherwise builds `"<transport>://<ip><delimiter><port>"`.  The JS `throw`
is modelled by `Except.error`. -/
def formConnectionString (config : JupyterConnectionInfo) (channel : ChannelName) :
    Except Err String :=
  let portDelimiter := if config.transport = Transport.tcp then ":" else "-"
  let port := channelPort config channel
  if truthyPort port = false then
    Except.error ("Port not found for channel \"" ++ channel.toStr ++ "\"")
  else
    Except.ok (config.transport.toStr ++ "://" ++ config.ip ++ portDelimiter ++
      toString (port.getD 0))

/-- The two zeromq socket classes used by the source: `Dealer` (has a
`send` method) and `Subscriber` (receive-only, no `send`). -/
inductive SocketKind
  | dealer
  | subscriber
deriving DecidableEq, Repr

/-- A bound zeromq socket as the source observes it: its class, the
routing identity it was configured with (dealers only), the endpoint it
was bound to, and the PUB/SUB topic filter (subscribers only). -/
structure Socket where
  kind : SocketKind
  routingId : Option String
  boundUrl : String
  subscription : Option String
deriving DecidableEq, Repr

/-- The capability probe `(socket as any).send !== undefined`
(index.ts line 184): of the two zeromq classes used, only `Dealer`
exposes a `send` method. -/
def hasSendMethod (s : Socket) : Bool :=
  s.kind = SocketKind.dealer

/-- The capability probe `if (socket.close)` (index.ts line 197): both
zeromq socket classes expose a `close` method, so the probe is always
truthy for the sockets of this program. -/
def hasCloseMethod (_s : Socket) : Bool :=
  true

/-- `createDealer` (index.ts lines 86-98): forms the connection string
(which may throw) and binds a `Dealer` configured with the routing
identity.  The asynchronous OS-level bind may fail; that external
outcome is the `bindErr` parameter (`none` = bind succeeded). -/
def createDealer (channel : ChannelName) (identity : String)
    (config : JupyterConnectionInfo) (bindErr : Option Err) : Except Err Socket := do
  let url ← formConnectionString config channel
  match bindErr with
  | some e => Except.error e
  | none =>
      Except.ok
        { kind := SocketKind.dealer
          routingId := some identity
          boundUrl := url
          subscription := none }

/-- `createSubscriber` (index.ts lines 64-75): forms the connection
string and binds a `Subscriber`.  `bindErr` is the external bind
outcome as in `createDealer`. -/
def createSubscriber (channel : ChannelName) (config : JupyterConnectionInfo)
    (bindErr : Option Err) : Except Err Socket := do
  let url ← formConnectionString config channel
  match bindErr with
  | some e => Except.error e
  | none =>
      Except.ok
        { kind := SocketKind.subscriber
          routingId := none
          boundUrl := url
          subscription := none }

/-- The external bind outcomes for the four concurrent socket creations
of one `createSockets` batch (`none` = that bind succeeded). -/
structure BindErrs where
  shell : Option Err := none
  control : Option Err := none
  stdin : Option Err := none
  iopub : Option Err := none
deriving DecidableEq, Repr

/-- `Promise.all` over the four creations (index.ts lines 119-124):
succeeds with all four results only when every creation succeeds;
otherwise rejects with one of the failures (modelled: the first failure
in argument order).  The non-failing promises keep running — their
sockets exist but are returned to nobody. -/
def promiseAll4 (a b c d : Except Err Socket) :
    Except Err (Socket × Socket × Socket × Socket) := do
  let x ← a
  let y ← b
  let z ← c
  let w ← d
  pure (x, y, z, w)

/-- The Socket Set returned by `createSockets` (index.ts lines 129-134). -/
structure SocketSet where
  shell : Socket
  control : Socket
  stdin : Socket
  iopub : Socket
deriving DecidableEq, Repr

/-- Result of the batch operation, together with the list of channels
whose sockets `createSockets` closed during the batch.  The source
performs no `close` call anywhere in `createSockets` (index.ts lines
114-135), so this list is `[]` on every path. -/
structure CreateSocketsResult where
  result : Except Err SocketSet
  closedDuringBatch : List ChannelName
deriving Repr

/-- `createSockets` (index.ts lines 114-135): runs the four creations
concurrently under `Promise.all`, then applies the iopub subscription
filter and returns the named set.  On the rejection path the source has
no cleanup code: already-created sockets are not closed. -/
def createSockets (config : JupyterConnectionInfo) (subscription : String)
    (identity : String) (be : BindErrs) : CreateSocketsResult :=
  match promiseAll4
      (createDealer ChannelName.shell identity config be.shell)
      (createDealer ChannelName.control identity config be.control)
      (createDealer ChannelName.stdin identity config be.stdin)
      (createSubscriber ChannelName.iopub config be.iopub) with
  | Except.error e => { result := Except.error e, closedDuringBatch := [] }
  | Except.ok (sh, co, st, io) =>
      { result := Except.ok
          { shell := sh
            control := co
            stdin := st
            iopub := { io with subscription := some subscription } }
        closedDuringBatch := [] }

/-- `HeaderFiller` (index.ts lines 30-33): the Header Enrichment Record. -/
structure HeaderFiller where
  session : String
  username : String
deriving DecidableEq, Repr

/-- A JS object with string-valued fields, as an association list in key
insertion order (keys assumed unique, as for the JSON headers of the
protocol). -/
abbrev Obj := List (String × String)

/-- Property access `o[k]` on a JS object. -/
def lookupStr (o : Obj) (k : String) : Option String :=
  (o.find? (fun p => p.1 == k)).map (fun p => p.2)

/-- JS object spread `{ ...a, ...b }`: keys of `b` override keys of `a`;
the result is a fresh object, neither input is mutated. -/
def spread2 (a b : Obj) : Obj :=
  a.filter (fun p => (lookupStr b p.1).isNone) ++ b

/-- The Header Enrichment Record viewed as the JS object spread into the
header (`...header` at index.ts line 177): exactly the two fields. -/
def fillerObj (h : HeaderFiller) : Obj :=
  [("session", h.session), ("username", h.username)]

/-- A `JupyterMessage` as the caller pushes it into the stream (and as
`decode` produces it): a routing `channel` field (possibly absent or
empty), JSON headers, payload fields and the low-level identity-routing
list `idents`. -/
structure Message where
  channel : Option String
  header : Obj
  parent_header : Obj
  content : String
  metadata : String
  buffers : List String
  idents : List String
deriving DecidableEq, Repr

/-- The on-wire `RawJupyterMessage` handed to `wireProtocol.encode`
(index.ts lines 175-183). -/
structure RawJupyterMessage where
  header : Obj
  parent_header : Obj
  content : String
  metadata : String
  buffers : List String
  idents : List String
deriving DecidableEq, Repr

/-- The `jMessage` construction of the outbound path (index.ts lines
175-183): the header is the spread `{ ...message.header, ...header }`
(enrichment record last, so its fields win), every other field is copied
from the message, and `idents` is the literal empty list — the message's
own `idents` is never read. -/
def buildWire (filler : HeaderFiller) (message : Message) : RawJupyterMessage :=
  { header := spread2 message.header (fillerObj filler)
    parent_header := message.parent_header
    content := message.content
    metadata := message.metadata
    buffers := message.buffers
    idents := [] }

/-- JS truthiness of `message.channel`: absent and `""` are falsy. -/
def truthyStr : Option String → Bool
  | none => false
  | some s => s != ""

/-- The lookup `sockets[message.channel]` (index.ts line 167) on the
channel-name-to-socket object. -/
def lookupSocket (sockets : List (String × Socket)) (name : String) : Option Socket :=
  (sockets.find? (fun p => p.1 == name)).map (fun p => p.2)

/-- Observable outcome of one invocation of the outbound handler: which
warning (if any) was printed, the sends that reached a socket, the
error (with the failing message) passed to `traceError`, and the wire
message that was built. -/
structure Outcome where
  warnedNoChannel : Bool := false
  warnedNoSocket : Bool := false
  sends : List (String × Wire) := []
  errorLogged : Option (Err × Message) := none
  wireMessage : Option RawJupyterMessage := none
deriving DecidableEq, Repr

/-- The body of the `try` block (index.ts lines 184-186): the capability
probe `(socket as any).send !== undefined`, then `encode` and the
socket's `send`, either of which may fail.  `encode` and `sendF` are the
external codec and socket-send collaborators. -/
def trySendBody (encode : RawJupyterMessage → Except Err Wire)
    (sendF : String → Wire → Except Err Unit)
    (socket : Socket) (name : String) (jMessage : RawJupyterMessage) :
    Except Err (List (String × Wire)) :=
  if hasSendMethod socket then do
    let w ← encode jMessage
    sendF name w
    pure [(name, w)]
  else
    pure []

/-- The `next` callback of `outgoingMessages` (index.ts lines 160-190),
translated branch by branch.  A JS exception escaping the callback would
be the only way the push could throw to the caller or destroy the
stream; that is modelled by `Except.error`, so `Except.ok` means the
stream survived the push.  The `message` argument is `none` for a falsy
(`undefined`/`null`) message. -/
def outgoingMessagesNext (encode : RawJupyterMessage → Except Err Wire)
    (sendF : String → Wire → Except Err Unit)
    (sockets : List (String × Socket)) (filler : HeaderFiller)
    (message : Option Message) : Except Err Outcome :=
  match message with
  | none => Except.ok { warnedNoChannel := true }
  | some m =>
    if truthyStr m.channel = false then
      Except.ok { warnedNoChannel := true }
    else
      match lookupSocket sockets (m.channel.getD "") with
      | none => Except.ok { warnedNoSocket := true }
      | some socket =>
        let jMessage := buildWire filler m
        match trySendBody encode sendF socket (m.channel.getD "") jMessage with
        | Except.ok sends =>
            Except.ok { sends := sends, wireMessage := some jMessage }
        | Except.error e =>
            Except.ok { errorLogged := some (e, m), wireMessage := some jMessage }

/-- A raw `message` event body as a socket emits it: the fields touched
by the inbound map (`idents`, which `delete` can remove, and a possible
pre-existing `channel` property) plus the untouched remainder of the
frame data. -/
structure RawFrame where
  idents : Option (List String)
  channel : Option String
  payload : String
deriving DecidableEq, Repr

/-- The `map` applied to each raw socket event (index.ts lines 215-223):
spread the body, set `channel` to the socket's channel name, `delete`
the `idents` property, and only then hand the result to the external
codec `wireProtocol.decode`.  Note the order: the source stamps the raw
frame first and decodes second. -/
def incomingMessagesMap (decode : RawFrame → Message) (name : String)
    (body : RawFrame) : Message :=
  decode { body with channel := some name, idents := none }

/-- Modelled from the spec's words, for comparison with the source's
`incomingMessagesMap` (refinement check): "decode via the external
codec, then stamp the result with a `channel` field equal to that
socket's channel name", with the `idents` routing list removed. -/
def specIncomingMessage (decode : RawFrame → Message) (name : String)
    (body : RawFrame) : Message :=
  let m := decode body
  { m with channel := some name, idents := [] }

/-- `rxjs.merge` over the per-socket mapped observables (index.ts lines
204-229), modelled by an explicit interleaving: a `schedule` lists the
raw events in their real arrival order, each paired with the channel of
the socket that emitted it.  The merged stream publishes, in schedule
order, the mapped message of each event, remembering which channel's
pipeline produced it. -/
def mergedTagged (decode : RawFrame → Message)
    (schedule : List (String × RawFrame)) : List (String × Message) :=
  schedule.map (fun p => (p.1, incomingMessagesMap decode p.1 p.2))

/-- The events of `schedule` that arrived on channel `c`, in order. -/
def channelEvents (schedule : List (String × RawFrame)) (c : String) :
    List RawFrame :=
  (schedule.filter (fun p => p.1 == c)).map (fun p => p.2)

/-- State of one multiplexed duplex stream: the subject's `closed`
flag, the `close` calls made on sockets (by channel name, in order),
and the inbound messages published to subscribers so far. -/
structure MultiplexState where
  closed : Bool
  closeEvents : List String
  published : List Message
deriving DecidableEq, Repr

/-- The completion handler installed by `createMainChannelFromSockets`
(index.ts lines 192-200): for every channel name of the socket object,
probe `socket.close` and call it.  This handler is the third argument
of `rxjs.Subscriber.create` and therefore runs only when the subject is
completed via `complete()` — which no code in this repository ever
calls. -/
def completeTeardown (sockets : List (String × Socket)) (st : MultiplexState) :
    MultiplexState :=
  { st with closeEvents := st.closeEvents ++
      ((sockets.filter (fun p => hasCloseMethod p.2)).map (fun p => p.1)) }

/-- Unsubscribing the duplex stream.  The stream is
`rxjs.Subject.create(outgoingMessages, incomingMessages)` (index.ts
line 231), an AnonymousSubject; `dispose` calls its inherited
`Subject.prototype.unsubscribe`, which only marks the subject closed
and drops its observer list.  It does not invoke the destination
subscriber's complete handler (`completeTeardown` runs only on
`complete()`), and it does not cancel consumer subscriptions, which
`AnonymousSubject._subscribe` attaches directly to the source
observable. -/
def unsubscribeChannel (st : MultiplexState) : MultiplexState :=
  { st with closed := true }

/-- Arrival of one raw socket event on the merged inbound stream: the
map of index.ts lines 215-223 publishes exactly one message per event.
Consumer subscriptions are attached by `AnonymousSubject._subscribe`
directly to the merged source observable, so the subject's `closed`
flag does not gate delivery: messages keep flowing to subscribers even
after `unsubscribe`. -/
def deliverRaw (decode : RawFrame → Message) (name : String) (body : RawFrame)
    (st : MultiplexState) : MultiplexState :=
  { st with published := st.published ++ [incomingMessagesMap decode name body] }

/-- `EnchannelJMPConnection` (enchannelJMPConnection.ts): holds the main
channel once `connect` has run, `undefined` before. -/
structure EnchannelJMPConnection where
  mainChannel : Option MultiplexState
deriving DecidableEq, Repr

/-- `EnchannelJMPConnection.dispose` (enchannelJMPConnection.ts lines
31-35): `if (this.mainChannel) { this.mainChannel.unsubscribe(); }`. -/
def EnchannelJMPConnection.dispose (conn : EnchannelJMPConnection) :
    EnchannelJMPConnection :=
  match conn.mainChannel with
  | none => conn
  | some st => { mainChannel := some (unsubscribeChannel st) }

/-- The socket object built by `createMainChannel` from a successful
`createSockets` result (index.ts lines 129-134, 256-257): string keys in
the declaration order of the returned object literal. -/
def socketsToMap (s : SocketSet) : List (String × Socket) :=
  [("shell", s.shell), ("control", s.control), ("stdin", s.stdin), ("iopub", s.iopub)]

/-! ### Helper lemmas -/

/-- When `b` lacks key `k`, filtering `a` down to the keys absent from
`b` does not change the `find?` for key `k`. -/
theorem find?_filter_of_none {b : Obj} {k : String} (hb : lookupStr b k = none)
    (a : Obj) :
    (a.filter (fun p => (lookupStr b p.1).isNone)).find? (fun p => p.1 == k) =
      a.find? (fun p => p.1 == k) := by
  induction a with
  | nil => rfl
  | cons hd tl ih =>
      rw [List.filter_cons]
      by_cases hq : (lookupStr b hd.1).isNone = true
      · rw [if_pos hq, List.find?_cons, List.find?_cons]
        cases hph : hd.1 == k
        · exact ih
        · rfl
      · rw [if_neg hq, List.find?_cons]
        cases hph : hd.1 == k
        · exact ih
        · exfalso
          have hk : hd.1 = k := eq_of_beq hph
          rw [hk, hb] at hq
          simp at hq

/-- Lookup through a JS spread `{ ...a, ...b }`: the value under `k` is
`b`'s when `b` has the key, otherwise `a`'s. -/
theorem lookupStr_spread2 (a b : Obj) (k : String) :
    lookupStr (spread2 a b) k = (lookupStr b k).or (lookupStr a k) := by
  unfold spread2
  cases hb : lookupStr b k with
  | some w =>
      have hnone : (a.filter (fun p => (lookupStr b p.1).isNone)).find?
          (fun p => p.1 == k) = none := by
        apply List.find?_eq_none.mpr
        intro x hx hpx
        have hqx := (List.mem_filter.mp hx).2
        have hk : x.1 = k := eq_of_beq hpx
        rw [hk, hb] at hqx
        simp at hqx
      have lhs_eq : lookupStr
          (a.filter (fun p => (lookupStr b p.1).isNone) ++ b) k = lookupStr b k := by
        rw [lookupStr, List.find?_append, hnone, Option.none_or]
        rfl
      rw [lhs_eq, hb]
      rfl
  | none =>
      have hb' : b.find? (fun p => p.1 == k) = none := by
        rw [lookupStr] at hb
        exact Option.map_eq_none'.mp hb
      have lhs_eq : lookupStr
          (a.filter (fun p => (lookupStr b p.1).isNone) ++ b) k = lookupStr a k := by
        rw [lookupStr, List.find?_append, find?_filter_of_none hb a, hb',
          Option.or_none]
        rfl
      rw [lhs_eq]
      rfl

/-- The enrichment record object's own lookups. -/
theorem lookupStr_fillerObj (h : HeaderFiller) (k : String) :
    lookupStr (fillerObj h) k =
      if k = "session" then some h.session
      else if k = "username" then some h.username
      else none := by
  by_cases hs : k = "session"
  · subst hs; simp [fillerObj, lookupStr, List.find?_cons]
  · by_cases hu : k = "username"
    · subst hu; simp [fillerObj, lookupStr, List.find?_cons]
    · have hs' : (("session" : String) == k) = false :=
        beq_eq_false_iff_ne.mpr (fun h' => hs h'.symm)
      have hu' : (("username" : String) == k) = false :=
        beq_eq_false_iff_ne.mpr (fun h' => hu h'.symm)
      simp [fillerObj, lookupStr, List.find?_cons, hs', hu', hs, hu]

/-- `Promise.all` succeeds only when every constituent succeeded. -/
theorem promiseAll4_ok {a b c d : Except Err Socket}
    {r : Socket × Socket × Socket × Socket}
    (h : promiseAll4 a b c d = Except.ok r) :
    a = Except.ok r.1 ∧ b = Except.ok r.2.1 ∧ c = Except.ok r.2.2.1 ∧
      d = Except.ok r.2.2.2 := by
  obtain ⟨r1, r2, r3, r4⟩ := r
  cases a <;> cases b <;> cases c <;> cases d <;>
    simp_all [promiseAll4, Bind.bind, Except.bind, Pure.pure, Except.pure]

/-- `Promise.all` fails as soon as any constituent fails. -/
theorem promiseAll4_error {a b c d : Except Err Socket}
    (h : a.isOk = false ∨ b.isOk = false ∨ c.isOk = false ∨ d.isOk = false) :
    ∃ e, promiseAll4 a b c d = Except.error e := by
  cases a <;> cases b <;> cases c <;> cases d <;>
    simp_all [promiseAll4, Bind.bind, Except.bind, Except.isOk, Except.toBool]

/-- A successful `createSubscriber` yields a subscriber-pattern socket. -/
theorem createSubscriber_ok {channel : ChannelName} {config : JupyterConnectionInfo}
    {be : Option Err} {io : Socket}
    (h : createSubscriber channel config be = Except.ok io) :
    io.kind = SocketKind.subscriber := by
  unfold createSubscriber at h
  cases hf : formConnectionString config channel <;> rw [hf] at h
  · simp [Bind.bind, Except.bind] at h
  · cases be <;> simp [Bind.bind, Except.bind] at h
    · exact h ▸ rfl

/-- Per-channel projection of the merged stream: filtering the tagged
merged output to one channel gives exactly that channel's events, in
arrival order, each mapped through the inbound pipeline. -/
theorem mergedTagged_filter (decode : RawFrame → Message) (c : String)
    (schedule : List (String × RawFrame)) :
    ((mergedTagged decode schedule).filter (fun p => p.1 == c)).map (fun p => p.2) =
      (channelEvents schedule c).map (incomingMessagesMap decode c) := by
  induction schedule with
  | nil => rfl
  | cons hd tl ih =>
      by_cases hp : (hd.1 == c) = true
      · have hk : hd.1 = c := eq_of_beq hp
        simpa [mergedTagged, channelEvents, List.filter_cons, hp, hk] using ih
      · have hp' : (hd.1 == c) = false := by
          cases h : hd.1 == c
          · rfl
          · exact absurd h hp
        simpa [mergedTagged, channelEvents, List.filter_cons, hp'] using ih

/-! ### Concrete sample values used by witnesses and counterexamples -/

/-- A well-formed connection descriptor with all four channel ports. -/
def sampleConfig : JupyterConnectionInfo :=
  { version := 5
    iopub_port := some 9002
    shell_port := some 9000
    stdin_port := some 9001
    control_port := some 9003
    hb_port := some 9004
    signature_scheme := "hmac-sha256"
    ip := "127.0.0.1"
    key := "secret"
    transport := Transport.tcp }

/-- `sampleConfig` with the stdin port absent. -/
def sampleConfigNoStdin : JupyterConnectionInfo :=
  { sampleConfig with stdin_port := none }

def sampleDealer : Socket :=
  { kind := SocketKind.dealer
    routingId := some "ident"
    boundUrl := "tcp://127.0.0.1:9000"
    subscription := none }

def sampleSubscriberSocket : Socket :=
  { kind := SocketKind.subscriber
    routingId := none
    boundUrl := "tcp://127.0.0.1:9002"
    subscription := some "" }

/-- A socket object shaped like the one `createMainChannel` builds. -/
def sampleSockets : List (String × Socket) :=
  [("shell", sampleDealer), ("control", sampleDealer),
   ("stdin", sampleDealer), ("iopub", sampleSubscriberSocket)]

def sampleFiller : HeaderFiller := { session := "s-new", username := "u-new" }

/-- A caller message routed to the shell channel, with pre-existing
`session` and stale `idents` to exercise the enrichment and reset. -/
def shellMsg : Message :=
  { channel := some "shell"
    header := [("msg_id", "m1"), ("session", "old-session"),
               ("msg_type", "execute_request")]
    parent_header := []
    content := "content"
    metadata := "metadata"
    buffers := []
    idents := ["stale-ident"] }

def bogusMsg : Message := { shellMsg with channel := some "bogus" }

def iopubMsg : Message := { shellMsg with channel := some "iopub" }

/-- A codec stub that always succeeds. -/
def okEncode : RawJupyterMessage → Except Err Wire := fun _ => Except.ok "wire"

/-- A codec stub that always fails. -/
def failEncode : RawJupyterMessage → Except Err Wire := fun _ =>
  Except.error "encode failed"

/-- A socket send stub that always succeeds. -/
def okSend : String → Wire → Except Err Unit := fun _ _ => Except.ok ()

/-- A decode stub that reads the frame's `channel` property into the
content, witnessing that decoding before or after the channel stamp is
observable. -/
def probeDecode : RawFrame → Message := fun f =>
  { channel := f.channel
    header := []
    parent_header := []
    content := f.channel.getD "absent"
    metadata := f.payload
    buffers := []
    idents := f.idents.getD [] }

/-- A decode stub that rebuilds the message from the wire fields only
and so drops the frame's `channel` property entirely. -/
def dropChannelDecode : RawFrame → Message := fun f =>
  { channel := none
    header := []
    parent_header := []
    content := f.payload
    metadata := ""
    buffers := []
    idents := f.idents.getD [] }

/-- A decode stub that commutes with the channel stamp and the `idents`
removal (it passes both through untouched). -/
def commDecode : RawFrame → Message := fun f =>
  { channel := f.channel
    header := []
    parent_header := []
    content := f.payload
    metadata := ""
    buffers := []
    idents := f.idents.getD [] }

def sampleFrame : RawFrame :=
  { idents := some ["routing-id"], channel := none, payload := "raw-a" }

def sampleFrameB : RawFrame :=
  { idents := none, channel := some "stale", payload := "raw-b" }

def sampleFrameC : RawFrame :=
  { idents := some [], channel := none, payload := "raw-c" }

/-- Arrival schedule: two back-to-back shell events around an iopub one. -/
def sampleSchedule : List (String × RawFrame) :=
  [("shell", sampleFrame), ("iopub", sampleFrameB), ("shell", sampleFrameC)]

/-- A live multiplex state with no close calls and nothing published. -/
def freshState : MultiplexState :=
  { closed := false, closeEvents := [], published := [] }

/-- The Socket Set `createSockets` actually builds from `sampleConfig`
with all binds succeeding. -/
def sampleCreatedSet : SocketSet :=
  { shell := sampleDealer
    control := { sampleDealer with boundUrl := "tcp://127.0.0.1:9003" }
    stdin := { sampleDealer with boundUrl := "tcp://127.0.0.1:9001" }
    iopub := sampleSubscriberSocket }

/-! ### Claim theorems -/

/-- C4: Header enrichment is a pure merge: the header of the wire
message built for an outbound push takes `session` and `username` from
the Header Enrichment Record regardless of any values already present
under those keys in the message header, and preserves every other
header field unchanged.  The header is a fresh object produced by the
spread (`spread2`); the input message is a value and is never
mutated. -/
theorem header_enrichment_pure_merge (filler : HeaderFiller) (m : Message) :
    lookupStr (buildWire filler m).header "session" = some filler.session ∧
    lookupStr (buildWire filler m).header "username" = some filler.username ∧
    ∀ k, k ≠ "session" → k ≠ "username" →
      lookupStr (buildWire filler m).header k = lookupStr m.header k := by
  have hW : (buildWire filler m).header = spread2 m.header (fillerObj filler) := rfl
  refine ⟨?_, ?_, ?_⟩
  · rw [hW, lookupStr_spread2, lookupStr_fillerObj]
    simp [Option.or]
  · rw [hW, lookupStr_spread2, lookupStr_fillerObj]
    simp [Option.or]
  · intro k hks hku
    rw [hW, lookupStr_spread2, lookupStr_fillerObj]
    simp [hks, hku]

/-- Witness for C4 at a concrete message carrying a stale `session` and
an unrelated `msg_id`. -/
theorem header_enrichment_pure_merge_witness :
    lookupStr (buildWire sampleFiller shellMsg).header "session" = some "s-new" ∧
    lookupStr (buildWire sampleFiller shellMsg).header "username" = some "u-new" ∧
    lookupStr (buildWire sampleFiller shellMsg).header "msg_id" = some "m1" := by
  have h := header_enrichment_pure_merge sampleFiller shellMsg
  refine ⟨h.1, h.2.1, ?_⟩
  rw [h.2.2 "msg_id" (by decide) (by decide)]
  decide

/-- C10: pushing a message builds the wire message as a fresh value
(the embedding is pure, so the caller's message is not mutated), its
`idents` list is always empty, and the construction never reads the
input message's own `idents`. -/
theorem push_wire_message_fresh_idents (filler : HeaderFiller) (m : Message)
    (xs : List String) :
    (buildWire filler m).idents = [] ∧
    buildWire filler { m with idents := xs } = buildWire filler m :=
  ⟨rfl, rfl⟩

/-- C8: the endpoint formatter returns
`"<transport>://<ip><delimiter><port>"` with delimiter `:` for tcp and
`-` for ipc whenever the channel's resolved port is truthy, and fails
with the configuration error whenever that port is zero, absent or
otherwise falsy — for every channel independently. -/
theorem formConnectionString_format_and_failure (config : JupyterConnectionInfo)
    (channel : ChannelName) :
    (∀ p : Int, channelPort config channel = some p → p ≠ 0 →
      formConnectionString config channel =
        Except.ok (config.transport.toStr ++ "://" ++ config.ip ++
          (if config.transport = Transport.tcp then ":" else "-") ++ toString p)) ∧
    (truthyPort (channelPort config channel) = false →
      formConnectionString config channel =
        Except.error ("Port not found for channel \"" ++ channel.toStr ++ "\"")) := by
  constructor
  · intro p hp hp0
    have htp : truthyPort (some p) = true := by
      simpa [truthyPort] using hp0
    rw [formConnectionString]
    simp [hp, htp]
  · intro hf
    rw [formConnectionString]
    simp [hf]

/-- Witness for C8: the tcp success case and the absent-port failure
case at concrete descriptors. -/
theorem formConnectionString_witness :
    formConnectionString sampleConfig ChannelName.shell =
      Except.ok "tcp://127.0.0.1:9000" ∧
    formConnectionString sampleConfigNoStdin ChannelName.stdin =
      Except.error "Port not found for channel \"stdin\"" := by
  constructor
  · have h := (formConnectionString_format_and_failure sampleConfig
      ChannelName.shell).1 9000 rfl (by decide)
    rw [h]
    rfl
  · have h := (formConnectionString_format_and_failure sampleConfigNoStdin
      ChannelName.stdin).2 rfl
    rw [h]
    exact congrArg Except.error (by decide)

/-- C3 fails as stated: the source stamps the raw frame with the channel
name and deletes `idents` BEFORE handing it to the codec
(index.ts lines 218-222), not after decoding as the claim says; a codec
that reads the frame's `channel` property observes the difference. -/
theorem incoming_decode_then_stamp_counterexample :
    incomingMessagesMap probeDecode "iopub" sampleFrame ≠
      specIncomingMessage probeDecode "iopub" sampleFrame := by
  decide

/-- C3 (amended): for every raw inbound event on a live stream exactly
one message is published on the merged stream; it is produced by first
stamping the raw frame with a `channel` field equal to the socket's
channel name and deleting the `idents` routing list, and then decoding
the stamped frame via the external codec.  This coincides with the
claim's decode-then-stamp form exactly when the codec commutes with the
stamp-and-strip step. -/
theorem incoming_stamp_then_decode (decode : RawFrame → Message) (name : String)
    (body : RawFrame) (st : MultiplexState) (hlive : st.closed = false) :
    (deliverRaw decode name body st).published =
      st.published ++ [incomingMessagesMap decode name body] ∧
    incomingMessagesMap decode name body =
      decode { body with channel := some name, idents := none } ∧
    ((∀ f n, decode { f with channel := some n, idents := none } =
        { decode f with channel := some n, idents := [] }) →
      incomingMessagesMap decode name body = specIncomingMessage decode name body) := by
  refine ⟨?_, rfl, ?_⟩
  · simp [deliverRaw, hlive]
  · intro hcomm
    rw [incomingMessagesMap, hcomm]
    rfl

/-- Witness for the amended C3 at a concrete live state and a codec that
commutes with the stamp. -/
theorem incoming_stamp_then_decode_witness :
    (deliverRaw commDecode "shell" sampleFrame freshState).published =
      freshState.published ++ [incomingMessagesMap commDecode "shell" sampleFrame] ∧
    incomingMessagesMap commDecode "shell" sampleFrame =
      specIncomingMessage commDecode "shell" sampleFrame := by
  have h := incoming_stamp_then_decode commDecode "shell" sampleFrame freshState rfl
  exact ⟨h.1, h.2.2 (fun f n => rfl)⟩

/-- C5: a pushed message whose `channel` is missing, empty, or names a
channel with no socket is dropped with a warning: zero socket sends,
nothing logged as a send error, and the push returns normally
(`Except.ok`), so the stream is not terminated — and since the handler
is a pure function of its arguments, later pushes are unaffected. -/
theorem unroutable_message_dropped (encode : RawJupyterMessage → Except Err Wire)
    (sendF : String → Wire → Except Err Unit) (sockets : List (String × Socket))
    (filler : HeaderFiller) (msg : Option Message)
    (h : msg = none ∨ ∃ m, msg = some m ∧ (truthyStr m.channel = false ∨
        lookupSocket sockets (m.channel.getD "") = none)) :
    ∃ o, outgoingMessagesNext encode sendF sockets filler msg = Except.ok o ∧
      o.sends = [] ∧ (o.warnedNoChannel = true ∨ o.warnedNoSocket = true) ∧
      o.errorLogged = none := by
  rcases h with h | ⟨m, hm, hmc⟩
  · subst h
    exact ⟨{ warnedNoChannel := true }, rfl, rfl, Or.inl rfl, rfl⟩
  · subst hm
    rcases hmc with hT | hL
    · refine ⟨{ warnedNoChannel := true }, ?_, rfl, Or.inl rfl, rfl⟩
      simp [outgoingMessagesNext, hT]
    · by_cases hT : truthyStr m.channel = false
      · refine ⟨{ warnedNoChannel := true }, ?_, rfl, Or.inl rfl, rfl⟩
        simp [outgoingMessagesNext, hT]
      · refine ⟨{ warnedNoSocket := true }, ?_, rfl, Or.inr rfl, rfl⟩
        simp [outgoingMessagesNext, hT, hL]

/-- Witness for C5: pushing a message with channel `"bogus"` into the
four-socket set. -/
theorem unroutable_message_dropped_witness :
    ∃ o, outgoingMessagesNext okEncode okSend sampleSockets sampleFiller
        (some bogusMsg) = Except.ok o ∧ o.sends = [] ∧
      (o.warnedNoChannel = true ∨ o.warnedNoSocket = true) ∧
      o.errorLogged = none :=
  unroutable_message_dropped okEncode okSend sampleSockets sampleFiller
    (some bogusMsg) (Or.inr ⟨bogusMsg, rfl, Or.inr (by decide)⟩)

/-- C6: push is fire-and-forget: for every pushed message the outbound
handler returns `Except.ok` (a JS exception escaping the callback — the
only way a push could throw to the caller or destroy the stream — is
`Except.error` in the model), and whenever the codec's encode or the
socket's send fails on a routed message, the failure is caught and
logged together with the failing message. -/
theorem push_never_throws (encode : RawJupyterMessage → Except Err Wire)
    (sendF : String → Wire → Except Err Unit) (sockets : List (String × Socket))
    (filler : HeaderFiller) (msg : Option Message) :
    (outgoingMessagesNext encode sendF sockets filler msg).isOk = true ∧
    (∀ m socket e, msg = some m → truthyStr m.channel = true →
      lookupSocket sockets (m.channel.getD "") = some socket →
      trySendBody encode sendF socket (m.channel.getD "") (buildWire filler m) =
        Except.error e →
      outgoingMessagesNext encode sendF sockets filler msg =
        Except.ok { errorLogged := some (e, m),
                    wireMessage := some (buildWire filler m) }) := by
  constructor
  · cases msg with
    | none => rfl
    | some m =>
        rw [outgoingMessagesNext]
        by_cases hT : truthyStr m.channel = false
        · simp [hT, Except.isOk, Except.toBool]
        · cases hlk : lookupSocket sockets (m.channel.getD "") with
          | none => simp [hT, hlk, Except.isOk, Except.toBool]
          | some socket =>
              cases htb : trySendBody encode sendF socket (m.channel.getD "")
                  (buildWire filler m) with
              | ok sends => simp [hT, hlk, htb, Except.isOk, Except.toBool]
              | error e => simp [hT, hlk, htb, Except.isOk, Except.toBool]
  · intro m socket e hm hT hlk htb
    subst hm
    rw [outgoingMessagesNext]
    simp [hT, hlk, htb]

/-- Witness for C6: a failing codec on a routed shell message is caught
and logged with the message, and the push still returns normally. -/
theorem push_never_throws_witness :
    (outgoingMessagesNext failEncode okSend sampleSockets sampleFiller
        (some shellMsg)).isOk = true ∧
    outgoingMessagesNext failEncode okSend sampleSockets sampleFiller
        (some shellMsg) =
      Except.ok { errorLogged := some ("encode failed", shellMsg),
                  wireMessage := some (buildWire sampleFiller shellMsg) } := by
  have h := push_never_throws failEncode okSend sampleSockets sampleFiller
    (some shellMsg)
  exact ⟨h.1, h.2 shellMsg sampleDealer "encode failed" rfl (by decide)
    (by decide) rfl⟩

/-- C7: after a successful batch creation the Socket Set has exactly the
four fixed channels, iopub's socket is the subscriber-pattern socket
without a `send` method, and pushing a message routed to iopub results
in a no-op: the send branch is unreachable, so zero sends, no logged
error and no crash. -/
theorem socket_set_four_channels_iopub_no_send (config : JupyterConnectionInfo)
    (sub id : String) (be : BindErrs) (set : SocketSet)
    (h : (createSockets config sub id be).result = Except.ok set) :
    (socketsToMap set).map (fun p => p.1) = ["shell", "control", "stdin", "iopub"] ∧
    set.iopub.kind = SocketKind.subscriber ∧
    hasSendMethod set.iopub = false ∧
    (∀ encode sendF filler m, m.channel = some "iopub" →
      outgoingMessagesNext encode sendF (socketsToMap set) filler (some m) =
        Except.ok { sends := [], wireMessage := some (buildWire filler m) }) := by
  rw [createSockets] at h
  split at h
  · exact absurd h (by simp)
  · next sh co st io heq =>
      dsimp only at h
      injection h with h
      subst h
      have hio : io.kind = SocketKind.subscriber :=
        createSubscriber_ok (promiseAll4_ok heq).2.2.2
      have hsend : hasSendMethod
          ({ shell := sh, control := co, stdin := st,
             iopub := { io with subscription := some sub } } : SocketSet).iopub
            = false := by
        simp [hasSendMethod, hio]
      refine ⟨rfl, hio, hsend, ?_⟩
      intro encode sendF filler m hm
      have hlk : lookupSocket (socketsToMap
          { shell := sh, control := co, stdin := st,
            iopub := { io with subscription := some sub } }) "iopub" =
          some { io with subscription := some sub } := by
        simp [lookupSocket, socketsToMap, List.find?_cons]
      rw [outgoingMessagesNext]
      simp [hm, truthyStr, hlk, trySendBody, hsend, Pure.pure, Except.pure]

/-- Witness for C7 on the concrete created set. -/
theorem socket_set_four_channels_witness :
    (socketsToMap sampleCreatedSet).map (fun p => p.1) =
      ["shell", "control", "stdin", "iopub"] ∧
    hasSendMethod sampleCreatedSet.iopub = false ∧
    outgoingMessagesNext okEncode okSend (socketsToMap sampleCreatedSet)
        sampleFiller (some iopubMsg) =
      Except.ok { sends := [], wireMessage := some (buildWire sampleFiller iopubMsg) } := by
  have h := socket_set_four_channels_iopub_no_send sampleConfig "" "ident"
    {} sampleCreatedSet rfl
  exact ⟨h.1, h.2.2.1, h.2.2.2 okEncode okSend sampleFiller iopubMsg rfl⟩

/-- C1 fails as stated: with the shell bind failing and the other three
creations succeeding, the batch rejects and returns no socket set, but
the control socket was created in the same batch and `createSockets`
contains no cleanup — `closedDuringBatch` is empty, so the
already-created sockets are leaked open, not closed. -/
theorem createSockets_no_cleanup_counterexample :
    (createSockets sampleConfig "" "ident" { shell := some "EADDRINUSE" }).result =
      Except.error "EADDRINUSE" ∧
    (createDealer ChannelName.control "ident" sampleConfig none).isOk = true ∧
    (createSockets sampleConfig "" "ident"
      { shell := some "EADDRINUSE" }).closedDuringBatch = [] :=
  ⟨rfl, rfl, rfl⟩

/-- C1 (amended): if any of the four per-channel creations fails, the
whole `createSockets` operation fails and no partial socket set is
returned; however the sockets already created in the same batch are NOT
closed before the error propagates — `createSockets` performs no close
call on any path. -/
theorem createSockets_fails_whole_without_cleanup (config : JupyterConnectionInfo)
    (sub id : String) (be : BindErrs)
    (h : (createDealer ChannelName.shell id config be.shell).isOk = false ∨
      (createDealer ChannelName.control id config be.control).isOk = false ∨
      (createDealer ChannelName.stdin id config be.stdin).isOk = false ∨
      (createSubscriber ChannelName.iopub config be.iopub).isOk = false) :
    (∃ e, (createSockets config sub id be).result = Except.error e) ∧
    (createSockets config sub id be).closedDuringBatch = [] := by
  obtain ⟨e, he⟩ := promiseAll4_error h
  constructor
  · exact ⟨e, by rw [createSockets, he]⟩
  · rw [createSockets]
    split <;> rfl

/-- Witness for the amended C1: a failing control bind. -/
theorem createSockets_fails_whole_witness :
    (∃ e, (createSockets sampleConfig "" "ident"
        { control := some "bind failed" }).result = Except.error e) ∧
    (createSockets sampleConfig "" "ident"
        { control := some "bind failed" }).closedDuringBatch = [] :=
  createSockets_fails_whole_without_cleanup sampleConfig "" "ident"
    { control := some "bind failed" } (Or.inr (Or.inl rfl))

/-- C2 evaluated at the failing input.  The claim matches the source's
own comment ("When the subject is completed / disposed, close all the
event listeners and shutdown the socket", index.ts lines 193-194), but
the code never completes the subject: `dispose()` calls `unsubscribe()`
on the `Subject.create` subject, which only marks it closed.  So after
two `dispose()` calls zero socket close calls have happened — each
socket is closed zero times, not exactly once — even though the
installed (never-invoked) completion handler would close each of the
four sockets exactly once; and a raw socket event after the first
`dispose()` still publishes one message on the merged stream. -/
theorem dispose_closes_nothing_and_inbound_continues :
    ∃ st1, (EnchannelJMPConnection.dispose (EnchannelJMPConnection.dispose
        { mainChannel := some freshState })).mainChannel = some st1 ∧
      st1.closeEvents = [] ∧
      (completeTeardown sampleSockets freshState).closeEvents =
        ["shell", "control", "stdin", "iopub"] ∧
      (deliverRaw probeDecode "iopub" sampleFrame st1).published =
        [incomingMessagesMap probeDecode "iopub" sampleFrame] := by
  refine ⟨{ freshState with closed := true }, rfl, rfl, ?_, rfl⟩
  simp [completeTeardown, hasCloseMethod, sampleSockets, freshState]

/-- C9 fails as stated: an inbound event on the iopub socket yields its
element on the merged stream, but the published message is NOT tagged
with channel `"iopub"` when the codec rebuilds the message from the
wire fields and drops the `channel` property — the source stamps the
raw frame BEFORE decoding (index.ts lines 218-222), so the tag survives
only if the codec carries it through. -/
theorem merged_stream_tagging_counterexample :
    ("iopub", incomingMessagesMap dropChannelDecode "iopub" sampleFrameB) ∈
      mergedTagged dropChannelDecode sampleSchedule ∧
    (incomingMessagesMap dropChannelDecode "iopub" sampleFrameB).channel ≠
      some "iopub" := by
  decide

/-- C9 (amended): for any arrival interleaving, the messages produced
from one channel's socket appear on the merged stream in that channel's
arrival order, and every scheduled event yields exactly one
merged-stream element (so events on two different channels both appear,
with no constraint on their relative order).  Because the channel tag
is stamped on the raw frame before decoding, a published message
carries its socket's channel name exactly when the codec preserves the
stamped `channel` field. -/
theorem merged_stream_per_channel_order (decode : RawFrame → Message)
    (schedule : List (String × RawFrame)) (c : String) :
    ((mergedTagged decode schedule).filter (fun p => p.1 == c)).map (fun p => p.2) =
      (channelEvents schedule c).map (incomingMessagesMap decode c) ∧
    (mergedTagged decode schedule).length = schedule.length ∧
    ((∀ f, (decode f).channel = f.channel) →
      ∀ pr, pr ∈ mergedTagged decode schedule → pr.2.channel = some pr.1) := by
  refine ⟨mergedTagged_filter decode c schedule, by simp [mergedTagged], ?_⟩
  intro hpres pr hpr
  simp only [mergedTagged, List.mem_map] at hpr
  obtain ⟨a, ha, rfl⟩ := hpr
  show (incomingMessagesMap decode a.1 a.2).channel = some a.1
  rw [incomingMessagesMap, hpres]

/-- Witness for the amended C9 on a concrete three-event schedule with
two back-to-back shell events around an iopub event, with a codec that
does preserve the stamped field. -/
theorem merged_stream_per_channel_order_witness :
    ((mergedTagged commDecode sampleSchedule).filter
        (fun p => p.1 == "shell")).map (fun p => p.2) =
      (channelEvents sampleSchedule "shell").map
        (incomingMessagesMap commDecode "shell") ∧
    (mergedTagged commDecode sampleSchedule).length = sampleSchedule.length ∧
    (("iopub", incomingMessagesMap commDecode "iopub" sampleFrameB) :
        String × Message).2.channel = some "iopub" := by
  have h := merged_stream_per_channel_order commDecode sampleSchedule "shell"
  exact ⟨h.1, h.2.1, h.2.2 (fun f => rfl) _ (by decide)⟩

end Enchannel
